import Mathlib

/-!
Verification development for the snapshot-manager specificationid and the
`config env init` rendering code of this repository.

The deployment engine's property values form a tagged union
(`resource.PropertyValue` in Go).  We embed the kinds that the code under
verification inspects: null, bool, number, string, array, object, secret,
the computed sentinel, assets, archives, resource references and outputs.
Numbers are float64 payloads in Go; the code under verification only carries
them through unchanged, so we model the payload as an integer.
-/

namespace Pulumi

/-- Tagged union of property values (`resource.PropertyValue`).  Objects are
modelled as association lists in key order. -/
inductive PropertyValue where
  | null
  | bool (b : Bool)
  | number (n : Int)
  | string (s : String)
  | array (xs : List PropertyValue)
  | object (entries : List (String × PropertyValue))
  | secret (element : PropertyValue)
  | computed
  | asset (path : String)
  | archive (path : String)
  | resourceReference (urn : String)
  | output (element : PropertyValue)
deriving Repr

mutual

/-- Structural equality on property values, as used by the Go
`PropertyMap.DeepEquals` on values whose object entries are in a canonical
key order (property maps are modelled as key-ordered association lists, so
key-insertion order is already abstracted away). -/
def pbeq : PropertyValue → PropertyValue → Bool
  | .null, .null => true
  | .bool a, .bool b => a == b
  | .number a, .number b => a == b
  | .string a, .string b => a == b
  | .array xs, .array ys => pbeqList xs ys
  | .object xs, .object ys => pbeqEntries xs ys
  | .secret a, .secret b => pbeq a b
  | .computed, .computed => true
  | .asset a, .asset b => a == b
  | .archive a, .archive b => a == b
  | .resourceReference a, .resourceReference b => a == b
  | .output a, .output b => pbeq a b
  | _, _ => false

/-- Elementwise structural equality of arrays of property values. -/
def pbeqList : List PropertyValue → List PropertyValue → Bool
  | [], [] => true
  | x :: xs, y :: ys => pbeq x y && pbeqList xs ys
  | _, _ => false

/-- Entrywise structural equality of object entries of property values. -/
def pbeqEntries : List (String × PropertyValue) → List (String × PropertyValue) → Bool
  | [], [] => true
  | (k₁, v₁) :: xs, (k₂, v₂) :: ys => k₁ == k₂ && pbeq v₁ v₂ && pbeqEntries xs ys
  | _, _ => false

end

/-- The `any` JSON-like values produced by `configEnvInitCmd.render`
(`nil`, Go primitives, `[]any` and `map[string]any`). -/
inductive Rendered where
  | null
  | bool (b : Bool)
  | number (n : Int)
  | string (s : String)
  | array (xs : List Rendered)
  | object (entries : List (String × Rendered))
deriving Repr

mutual

/-- `configEnvInitCmd.render` from `pkg/cmd/pulumi/config/config_env_init.go`:
a switch over the kind tests `IsBool`, `IsNumber`, `IsString`, `IsArray`,
`IsObject`, `IsSecret`, with a default case returning `nil`.  Every property
value has exactly one kind, so the ordered switch is a pattern match. -/
def render : PropertyValue → Rendered
  | .bool b => .bool b
  | .number n => .number n
  | .string s => .string s
  | .array xs => .array (renderList xs)
  | .object entries => .object (renderEntries entries)
  | .secret element => .object [("fn::secret", render element)]
  | _ => .null

/-- The loop `for i, v := range arrV { rendered[i] = cmd.render(v) }`. -/
def renderList : List PropertyValue → List Rendered
  | [] => []
  | x :: xs => render x :: renderList xs

/-- The loop `for k, v := range objV { rendered[string(k)] = cmd.render(v) }`. -/
def renderEntries : List (String × PropertyValue) → List (String × Rendered)
  | [] => []
  | (k, v) :: xs => (k, render v) :: renderEntries xs

end

theorem renderList_eq_map (xs : List PropertyValue) :
    renderList xs = xs.map render := by
  induction xs with
  | nil => rfl
  | cons x xs ih => simp [renderList, ih]

theorem renderEntries_eq_map (xs : List (String × PropertyValue)) :
    renderEntries xs = xs.map (fun e => (e.1, render e.2)) := by
  induction xs with
  | nil => rfl
  | cons x xs ih => cases x; simp [renderEntries, ih]

/-- Modelled from the spec: `ResourceState` (§3), the unit of persisted
state.  We embed the fields of the spec's data model that the claims and the
classifier's meaningful set exercise; `PropertyDependencies`, `InitErrors`,
`ImportID`, `RetainOnDelete`, `DeletedWith`, `AdditionalSecretOutputs`,
`Aliases` and `CustomTimeouts` behave exactly like the embedded comparable
fields and are omitted.  `ext` is the spec's `External` flag; `typ` is
`Type`.  Property maps are key-ordered association lists.  The provider
reference is modelled as the provider's URN. -/
structure ResourceState where
  urn : String
  typ : String
  id : String
  custom : Bool
  ext : Bool
  delete : Bool
  protect : Bool
  parent : String
  provider : String
  dependencies : List String
  inputs : List (String × PropertyValue)
  outputs : List (String × PropertyValue)
  sourcePosition : String
deriving Repr

/-- `NewResource` from the test file: a resource of type `test` with the
given URN and dependencies, empty inputs and outputs. -/
def newResource (urn : String) (deps : List String) : ResourceState :=
  ⟨urn, "test", "", false, false, false, false, "", "", deps, [], [], ""⟩

/-- `NewResourceWithInputs` from the test file. -/
def newResourceWithInputs (urn : String) (inputs : List (String × PropertyValue)) :
    ResourceState :=
  ⟨urn, "test", "", false, false, false, false, "", "", [], inputs, [], ""⟩

/-- Modelled from the spec: the kinds of `PendingOperation` (§3); the
`Importing` kind is exercised by no claim and is omitted. -/
inductive OperationType where
  | creating
  | updating
  | deleting
  | reading
deriving Repr, DecidableEq

/-- Modelled from the spec: `PendingOperation` = `(ResourceState, OperationKind)`. -/
structure PendingOperation where
  resource : ResourceState
  opType : OperationType
deriving Repr

/-- Modelled from the spec: the structured integrity errors of §4.1/§7. -/
inductive IntegrityError where
  | missingDependency (urn dep : String)
  | duplicateURN (urn : String)
  | parentNotFound (urn par : String)
  | providerNotFound (urn prov : String)
deriving Repr, DecidableEq

/-- Modelled from the spec: `Snapshot` (§3) restricted to the fields the
claims observe (`Manifest` and `SecretsManager` are opaque payloads stored
verbatim and are omitted). -/
structure Snapshot where
  resources : List ResourceState
  pendingOperations : List PendingOperation
  integrityErrorMetadata : Option (List IntegrityError)
deriving Repr

/-- The per-resource checks of the integrity verifier at one point of the
forward pass: `seen` holds the URNs of all earlier resources, `seenLive` the
URNs of earlier resources not marked `Delete`. -/
def checkResource (seen seenLive : List String) (r : ResourceState) : List IntegrityError :=
  (if !r.delete && seenLive.contains r.urn then [.duplicateURN r.urn] else []) ++
  ((r.dependencies.filter (fun d => !(seen.contains d))).map
    (fun d => .missingDependency r.urn d)) ++
  (if r.parent != "" && !(seen.contains r.parent) then [.parentNotFound r.urn r.parent] else []) ++
  (if r.provider != "" && !(seen.contains r.provider)
   then [.providerNotFound r.urn r.provider] else [])

/-- The forward pass of the integrity verifier. -/
def verifyGo (seen seenLive : List String) : List ResourceState → List IntegrityError
  | [] => []
  | r :: rest =>
      checkResource seen seenLive r ++
      verifyGo (seen ++ [r.urn]) (if r.delete then seenLive else seenLive ++ [r.urn]) rest

/-- Modelled from the spec: the Integrity Verifier (§4.1).  Checks I1–I3 by a
single forward pass maintaining the set of URNs seen so far: duplicate URNs
among non-`Delete` resources, and dependency / parent / provider references
that do not resolve to an earlier resource. -/
def verifyIntegrity (resources : List ResourceState) : List IntegrityError :=
  verifyGo [] [] resources

/-- Modelled from the spec: step kinds (§1, §9); `RegisterOutputs` is a
separate manager entry point and `Import` is exercised by no claim. -/
inductive StepOp where
  | same
  | create
  | read
  | update
  | delete
  | replace
  | createReplacement
deriving Repr, DecidableEq

/-- Modelled from the spec: a step is an engine-issued record describing a
transition for a single resource, with old and new states as the step kind
requires. -/
structure Step where
  op : StepOp
  old : Option ResourceState
  new : Option ResourceState

/-- URN of the step's old side (empty when there is none). -/
def Step.oldUrn (step : Step) : String :=
  match step.old with
  | some o => o.urn
  | none => ""

/-- URN of the resource the step concerns. -/
def Step.urn (step : Step) : String :=
  match step.new with
  | some n => n.urn
  | none => step.oldUrn

/-- Modelled from the spec: the Step Classifier (§4.2) for Same steps.  A
Same step is meaningful iff one of the observable fields differs between old
and new; `SourcePosition` differences are not meaningful, and inputs and
outputs are compared structurally. -/
def sameMeaningful (old new : ResourceState) : Bool :=
  old.typ != new.typ || old.parent != new.parent || old.protect != new.protect ||
  old.ext != new.ext || old.custom != new.custom || old.id != new.id ||
  old.provider != new.provider || old.dependencies != new.dependencies ||
  !pbeqEntries old.inputs new.inputs || !pbeqEntries old.outputs new.outputs

/-- Modelled from the spec: the Snapshot Manager's state (§4.3, §4.4): the
immutable base snapshot, the new states appended in the order their steps
ended (`news`), the URNs of base resources consumed by completed steps
(`dones`), the base URNs marked to-be-`Delete` by replace pairs (`toDelete`),
the in-flight pending operations, and the process-wide flags.  The persister
is embedded as the list of snapshots it received (`saved`), mirroring the
test file's `MockStackPersister`. -/
structure SnapshotManager where
  base : List ResourceState
  news : List ResourceState
  dones : List String
  toDelete : List String
  operations : List PendingOperation
  baseMetadata : Option (List IntegrityError)
  skipCheckpoints : Bool
  disableIntegrityChecking : Bool
  saved : List Snapshot

/-- `NewSnapshotManager` over a base snapshot, as set up by the test file's
`MockSetup`, with the given process-wide skip-checkpoints flag. -/
def SnapshotManager.init (baseResources : List ResourceState) (skip : Bool) : SnapshotManager :=
  ⟨baseResources, [], [], [], [], none, skip, false, []⟩

/-- A base resource scheduled for pending deletion is emitted as a clone with
`Delete=true` (spec §4.3 rule 4 and §5 shared-resource policy). -/
def markDelete (r : ResourceState) : ResourceState :=
  { r with delete := true }

/-- Modelled from the spec: the base walk of the Merge Engine (§4.3).  Base
resources whose URN was consumed by a completed step are dropped (their new
state lives in `news`), resources scheduled for deletion-complete are
skipped via `dones` as well, and resources marked to-be-`Delete` by a
replace pair are emitted as `Delete=true` clones at their base position. -/
def mergeTail (sm : SnapshotManager) : List ResourceState :=
  (sm.base.filter (fun r => !(sm.dones.contains r.urn))).map
    (fun r => if sm.toDelete.contains r.urn then markDelete r else r)

/-- Modelled from the spec: the Merge Engine's output snapshot (§4.3): the
new states in the order their steps ended, followed by the base resources
not yet seen by the current deployment, with `PendingOperations` set to the
current operations. -/
def snapOf (sm : SnapshotManager) : Snapshot :=
  ⟨sm.news ++ mergeTail sm, sm.operations, sm.baseMetadata⟩

/-- Modelled from the spec: integrity verification at save time (§4.5).
Returns the snapshot as handed to the persister together with the manager's
error result: on a clean verification the integrity metadata is cleared; on
a failed verification the metadata is populated and, unless
`DisableIntegrityChecking` is set, the save returns the
`failed to verify snapshot` error. -/
def saveResult (snap : Snapshot) (disableChecks : Bool) : Snapshot × Option String :=
  if (verifyIntegrity snap.resources).isEmpty then
    ({ snap with integrityErrorMetadata := none }, none)
  else
    ({ snap with integrityErrorMetadata := some (verifyIntegrity snap.resources) },
     if disableChecks then none else some "failed to verify snapshot")

/-- `saveSnapshot`: verify, hand the (metadata-adjusted) snapshot to the
persister, and report the verification error if any. -/
def SnapshotManager.saveSnapshot (sm : SnapshotManager) : SnapshotManager × Option String :=
  let r := saveResult (snapOf sm) sm.disableIntegrityChecking
  ({ sm with saved := sm.saved ++ [r.1] }, r.2)

/-- An unconditional save, discarding the error (the engine surfaces it). -/
def doSave (sm : SnapshotManager) : SnapshotManager :=
  (SnapshotManager.saveSnapshot sm).1

/-- An intermediate save: omitted entirely in skip-checkpoints mode (§4.4). -/
def maybeSave (sm : SnapshotManager) : SnapshotManager :=
  if sm.skipCheckpoints then sm else doSave sm

/-- Modelled from the spec: the pending operation recorded for a step
(§4.4): Creating for Create and CreateReplacement, Updating for Update,
Deleting for Delete and Replace's old side, Reading for Read, none for the
elidable Same. -/
def opFor (step : Step) : Option PendingOperation :=
  match step.op, step.old, step.new with
  | .same, _, _ => none
  | .create, _, some n => some ⟨n, .creating⟩
  | .createReplacement, _, some n => some ⟨n, .creating⟩
  | .update, _, some n => some ⟨n, .updating⟩
  | .delete, some o, _ => some ⟨o, .deleting⟩
  | .replace, some o, _ => some ⟨o, .deleting⟩
  | .read, _, some n => some ⟨n, .reading⟩
  | _, _, _ => none

/-- Modelled from the spec: `BeginMutation` (§4.4): record the pending
operation and save immediately for non-elidable transitions; the Begin of a
CreateReplacement additionally marks the old state as to-be-marked-`Delete`
(§4.3 tie-breaks). -/
def SnapshotManager.beginMutation (sm : SnapshotManager) (step : Step) : SnapshotManager :=
  match opFor step with
  | none => sm
  | some op =>
      let sm₁ := { sm with operations := sm.operations ++ [op] }
      let sm₂ :=
        if step.op = .createReplacement
        then { sm₁ with toDelete := sm₁.toDelete ++ [step.oldUrn] }
        else sm₁
      maybeSave sm₂

/-- Modelled from the spec: `MutationHandle.End` (§4.4): remove the pending
operation; on success update `dones`/`news` per the step kind and save when
the completed step is meaningful (Same steps are reclassified, all other
kinds are always meaningful); on failure leave the base state intact —
undoing a CreateReplacement's to-be-`Delete` mark — and still save so the
pending operation disappears from disk. -/
def SnapshotManager.endMutation (sm : SnapshotManager) (step : Step) (success : Bool) :
    SnapshotManager :=
  let u := step.urn
  let sm₀ := { sm with operations := sm.operations.filter (fun op => !(op.resource.urn == u)) }
  if success then
    match step.op, step.old, step.new with
    | .same, some o, some n =>
        let sm₁ := { sm₀ with dones := sm₀.dones ++ [o.urn], news := sm₀.news ++ [n] }
        if sameMeaningful o n then maybeSave sm₁ else sm₁
    | .create, _, some n => maybeSave { sm₀ with news := sm₀.news ++ [n] }
    | .createReplacement, _, some n => maybeSave { sm₀ with news := sm₀.news ++ [n] }
    | .update, some o, some n =>
        maybeSave { sm₀ with dones := sm₀.dones ++ [o.urn], news := sm₀.news ++ [n] }
    | .delete, some o, _ => maybeSave { sm₀ with dones := sm₀.dones ++ [o.urn] }
    | .replace, _, _ => maybeSave sm₀
    | .read, some o, some n =>
        maybeSave { sm₀ with dones := sm₀.dones ++ [o.urn], news := sm₀.news ++ [n] }
    | .read, none, some n => maybeSave { sm₀ with news := sm₀.news ++ [n] }
    | _, _, _ => maybeSave sm₀
  else
    let sm₁ :=
      if step.op = .createReplacement
      then { sm₀ with toDelete := sm₀.toDelete.filter (fun x => !(x == step.oldUrn)) }
      else sm₀
    maybeSave sm₁

/-- Modelled from the spec: `Close` (§4.4): force a final save regardless of
the meaningful/elidable classification and of skip-checkpoints mode. -/
def SnapshotManager.close (sm : SnapshotManager) : SnapshotManager :=
  doSave sm

/-- Modelled from the spec: `RegisterResourceOutputs` (§4.4): a
Same-semantics rewrite of the Outputs of a resource; save iff the outputs
changed. -/
def SnapshotManager.registerResourceOutputs (sm : SnapshotManager) (step : Step) :
    SnapshotManager :=
  match step.old, step.new with
  | some o, some n =>
      if pbeqEntries o.outputs n.outputs then sm
      else maybeSave { sm with dones := sm.dones ++ [o.urn], news := sm.news ++ [n] }
  | _, _ => maybeSave sm

/-- Begin and end a step with the given success flag, as the test file's
`applyStep` does. -/
def SnapshotManager.applyStep (sm : SnapshotManager) (step : Step) (success : Bool) :
    SnapshotManager :=
  (sm.beginMutation step).endMutation step success

/-- A step is consistent when its old and new states (where present) carry
the same URN, as the engine guarantees for every step kind. -/
def stepConsistent (step : Step) : Prop :=
  match step.old, step.new with
  | some o, some n => o.urn = n.urn
  | _, _ => True

/-! ### Scenario inputs, taken from the test file -/

/-- Resource `a` of the vexing deployment: no dependencies. -/
def vexA : ResourceState := newResource "a" []

/-- Resource `b` of the vexing deployment: depends on `a`. -/
def vexB : ResourceState := newResource "b" ["a"]

/-- Resource `c` of the vexing deployment: depends on `a` and `b`. -/
def vexC : ResourceState := newResource "c" ["a", "b"]

/-- Resource `d` of the vexing deployment: depends on `c`. -/
def vexD : ResourceState := newResource "d" ["c"]

/-- Resource `e` of the vexing deployment: depends on `c`. -/
def vexE : ResourceState := newResource "e" ["c"]

/-- `bPrime`: the Same target for `b`, with no dependencies. -/
def vexBP : ResourceState := newResource "b" []

/-- `cPrime`: the replacement for `c`, depending only on `b`. -/
def vexCP : ResourceState := newResource "c" ["b"]

/-- `dPrime`: the Update target for `d`, depending on the new `c`. -/
def vexDP : ResourceState := newResource "d" ["c"]

/-- The vexing deployment run: Same(b, b'), CreateReplacement(c, c'),
Replace(c), Update(d, d'), each successfully ended. -/
def vexingRun : SnapshotManager :=
  ((((SnapshotManager.init [vexA, vexB, vexC, vexD, vexE] false).applyStep
        ⟨.same, some vexB, some vexBP⟩ true).applyStep
      ⟨.createReplacement, some vexC, some vexCP⟩ true).applyStep
    ⟨.replace, some vexC, some vexCP⟩ true).applyStep
    ⟨.update, some vexD, some vexDP⟩ true

/-- Resource `a` of the dependency-swap scenario. -/
def swapA : ResourceState := newResource "a-unique-urn-resource-a" []

/-- Resource `b` of the dependency-swap scenario: depends on `a`. -/
def swapB : ResourceState := newResource "a-unique-urn-resource-b" ["a-unique-urn-resource-a"]

/-- The Same target for `b`: no dependencies. -/
def swapBU : ResourceState := newResource "a-unique-urn-resource-b" []

/-- The Same target for `a`: now depends on `b`. -/
def swapAU : ResourceState := newResource "a-unique-urn-resource-a" ["a-unique-urn-resource-b"]

/-- The dependency-swap run after Same(b, new b) ended successfully. -/
def swapRun1 : SnapshotManager :=
  (SnapshotManager.init [swapA, swapB] false).applyStep ⟨.same, some swapB, some swapBU⟩ true

/-- The dependency-swap run after additionally ending Same(a, new a). -/
def swapRun2 : SnapshotManager :=
  swapRun1.applyStep ⟨.same, some swapA, some swapAU⟩ true

/-- A same-elision run: one Same step over the given base, ended successfully. -/
def sameElideRun (base : List ResourceState) (o n : ResourceState) : SnapshotManager :=
  (SnapshotManager.init base false).applyStep ⟨.same, some o, some n⟩ true

/-- The identical-Same resource of `TestIdenticalSames`. -/
def identA : ResourceState := newResource "a-unique-urn" []

/-- The resource of `TestSamesWithEmptyArraysInInputs`: inputs deserialized
from the state file `{"defaults": []}`. -/
def emptyArrOld : ResourceState :=
  newResourceWithInputs "a-unique-urn-resource-a" [("defaults", .array [])]

/-- The same inputs after the marshal/unmarshal round trip through the RPC
layer: an empty array round-trips to an empty array. -/
def emptyArrNew : ResourceState :=
  newResourceWithInputs "a-unique-urn-resource-a" [("defaults", .array [])]

/-! ### Helper lemmas about saving and merging -/

theorem saveResult_fst_resources (s : Snapshot) (d : Bool) :
    ((saveResult s d).1).resources = s.resources := by
  unfold saveResult; split <;> rfl

theorem saveResult_fst_pending (s : Snapshot) (d : Bool) :
    ((saveResult s d).1).pendingOperations = s.pendingOperations := by
  unfold saveResult; split <;> rfl

theorem doSave_saved (sm : SnapshotManager) :
    (doSave sm).saved =
      sm.saved ++ [(saveResult (snapOf sm) sm.disableIntegrityChecking).1] := rfl

theorem mergeTail_no_dones (sm : SnapshotManager) (h1 : sm.dones = []) (h2 : sm.toDelete = []) :
    mergeTail sm = sm.base := by
  unfold mergeTail
  rw [h1, h2]
  induction sm.base with
  | nil => rfl
  | cons r rest ih => simp_all [List.filter, List.contains]

/-! ### Claim theorems -/

/-- C1: Vexing merge — starting from the base snapshot
`[A, B(dep A), C(dep A,B), D(dep C), E(dep C)]`, after successfully ending
Same(B, B' with no deps), CreateReplacement(C, C' with dep B'), Replace(C)
and Update(D, D' with dep C'), the last saved snapshot's Resources list has
exactly 6 entries in the order
`[B', C'(dep B'), D'(dep C'), A, old C with Delete=true and deps {A,B}, E(dep C)]`. -/
theorem vexing_merge_final_resources :
    (vexingRun.saved.getLast?).map (fun s => s.resources) =
      some [vexBP, vexCP, vexDP, vexA, markDelete vexC, vexE] ∧
    (vexingRun.saved.getLast?).map (fun s => s.resources.length) = some 6 := by
  constructor <;> rfl

/-- C2 (counterexample): in the dependency-swap scenario with base
`[A, B(dep A)]`, after Same(B, new B) ends, the done state for B's URN is
emitted at position 0 of the saved Resources list, not at B's base position
1 — the saved URN order is `[B, A]`, so the claim's in-place substitution
(`[A, B]`) is false. -/
theorem merge_in_place_cex :
    [swapA, swapB].map ResourceState.urn =
      ["a-unique-urn-resource-a", "a-unique-urn-resource-b"] ∧
    swapRun1.saved.map (fun s => s.resources.map ResourceState.urn) =
      [["a-unique-urn-resource-b", "a-unique-urn-resource-a"]] ∧
    ¬ swapRun1.saved.map (fun s => s.resources.map ResourceState.urn) =
        [["a-unique-urn-resource-a", "a-unique-urn-resource-b"]] := by
  refine ⟨rfl, rfl, ?_⟩
  decide

/-- C2 (amended): for every base resource b whose URN is in the done map,
the merged Resources list omits b's base entry — every resource emitted by
the base walk has a URN not in done — and the completed states are emitted
in the completed-steps segment at the front of the list, in step-completion
order, not at b's original base position. -/
theorem merge_done_consumed_from_base (sm : SnapshotManager) (b : ResourceState)
    (hb : b ∈ sm.base) (hd : sm.dones.contains b.urn = true) :
    (snapOf sm).resources = sm.news ++ mergeTail sm ∧
    (∀ r ∈ mergeTail sm, sm.dones.contains r.urn = false) ∧
    (∀ r ∈ mergeTail sm, r.urn ≠ b.urn) := by
  have key : ∀ r ∈ mergeTail sm, sm.dones.contains r.urn = false := by
    intro r hr
    unfold mergeTail at hr
    simp only [List.mem_map, List.mem_filter] at hr
    obtain ⟨r₀, ⟨h₀, hp⟩, hEq⟩ := hr
    have hurn : r.urn = r₀.urn := by
      rw [← hEq]
      split <;> rfl
    rw [hurn]
    simpa using hp
  refine ⟨rfl, key, ?_⟩
  intro r hr hRB
  have := key r hr
  rw [hRB, hd] at this
  exact Bool.noConfusion this

theorem merge_done_consumed_from_base_witness :
    (snapOf swapRun1).resources = swapRun1.news ++ mergeTail swapRun1 ∧
    (∀ r ∈ mergeTail swapRun1, swapRun1.dones.contains r.urn = false) ∧
    (∀ r ∈ mergeTail swapRun1, r.urn ≠ swapB.urn) :=
  merge_done_consumed_from_base swapRun1 swapB
    (List.mem_cons_of_mem swapA (List.mem_cons_self swapB []))
    (by rfl)

/-- C3: Dependency-swap sequence — with base `[A, B(dep A)]`, successfully
ending Same(B, new B with no deps) and then Same(A, new A with dep B)
produces exactly the saved Resources sequence `[B(), A()]` after B's End and
then `[B(), A(dep B)]` after A's End. -/
theorem dependency_swap_saves :
    swapRun1.saved.map (fun s => s.resources) = [[swapBU, swapA]] ∧
    swapRun2.saved.map (fun s => s.resources) =
      [[swapBU, swapA], [swapBU, swapAU]] := by
  constructor <;> rfl

/-- C10: `configEnvInitCmd.render` is total and drops unsupported kinds —
Bool, Number and String values map to their underlying values, Array values
map elementwise and Object values entrywise (recursively), a Secret value
maps to the single-key object `fn::secret` over its rendered element, and
every other kind (null, computed sentinel, asset, archive, resource
reference, output) maps to nil. -/
theorem render_total_unsupported_nil (b : Bool) (n : Int) (s p q u : String)
    (xs : List PropertyValue) (es : List (String × PropertyValue)) (v w : PropertyValue) :
    render (.bool b) = .bool b ∧
    render (.number n) = .number n ∧
    render (.string s) = .string s ∧
    render (.array xs) = .array (xs.map render) ∧
    render (.object es) = .object (es.map (fun e => (e.1, render e.2))) ∧
    render (.secret v) = .object [("fn::secret", render v)] ∧
    render .null = .null ∧
    render .computed = .null ∧
    render (.asset p) = .null ∧
    render (.archive q) = .null ∧
    render (.resourceReference u) = .null ∧
    render (.output w) = .null := by
  refine ⟨rfl, rfl, rfl, ?_, ?_, rfl, rfl, rfl, rfl, rfl, rfl, rfl⟩
  · simp [render, renderList_eq_map]
  · simp [render, renderEntries_eq_map]

theorem mergeTail_explicit (base news : List ResourceState) (ops : List PendingOperation)
    (md : Option (List IntegrityError)) (sk dis : Bool) (saved : List Snapshot) :
    mergeTail ⟨base, news, [], [], ops, md, sk, dis, saved⟩ = base :=
  mergeTail_no_dones _ rfl rfl

theorem doSave_getLast_view (sm : SnapshotManager) :
    (doSave sm).saved.getLast?.map (fun s => (s.resources, s.pendingOperations)) =
      some ((snapOf sm).resources, sm.operations) := by
  simp [doSave_saved, saveResult_fst_resources, saveResult_fst_pending, snapOf]

/-- C4: Same-elision — a Same step whose old and new states are field-equal
on the classifier's meaningful set produces no save between BeginMutation
and End; a subsequent Close writes a snapshot that contains the resource at
the head of the news segment with zero pending operations. -/
theorem same_elision (base : List ResourceState) (o n : ResourceState)
    (h : sameMeaningful o n = false) :
    (sameElideRun base o n).saved = [] ∧
    ((sameElideRun base o n).close).saved.map
      (fun s => (s.resources.head?, s.pendingOperations)) = [(some n, [])] := by
  have hrun : sameElideRun base o n = ⟨base, [n], [o.urn], [], [], none, false, false, []⟩ := by
    simp [sameElideRun, SnapshotManager.applyStep, SnapshotManager.beginMutation, opFor,
      SnapshotManager.endMutation, SnapshotManager.init, h]
  rw [hrun]
  refine ⟨rfl, ?_⟩
  simp [SnapshotManager.close, doSave_saved, saveResult_fst_resources,
    saveResult_fst_pending, snapOf]

theorem same_elision_witness :
    (sameMeaningful identA identA = false ∧
      (sameElideRun [identA] identA identA).saved = [] ∧
      ((sameElideRun [identA] identA identA).close).saved.map
        (fun s => (s.resources.head?, s.pendingOperations)) = [(some identA, [])]) ∧
    (sameMeaningful emptyArrOld emptyArrNew = false ∧
      (sameElideRun [emptyArrOld] emptyArrOld emptyArrNew).saved = []) :=
  ⟨⟨rfl, (same_elision [identA] identA identA rfl).1,
    (same_elision [identA] identA identA rfl).2⟩,
   ⟨rfl, (same_elision [emptyArrOld] emptyArrOld emptyArrNew rfl).1⟩⟩

/-- C5: Failure neutrality — for every step kind, ending the step with
`success = false` over a fresh manager removes the step's pending operation
and triggers a save whose Resources equal the base state and whose pending
operations are empty. -/
theorem failure_neutrality (base : List ResourceState) (step : Step)
    (hw : stepConsistent step) :
    ((SnapshotManager.init base false).applyStep step false).saved.getLast?.map
      (fun s => (s.resources, s.pendingOperations)) = some (base, []) := by
  obtain ⟨op, old, new⟩ := step
  cases op <;> cases old <;> cases new <;>
    simp_all [SnapshotManager.applyStep, SnapshotManager.beginMutation, opFor,
      SnapshotManager.endMutation, maybeSave, doSave, SnapshotManager.saveSnapshot,
      SnapshotManager.init, stepConsistent, Step.urn, Step.oldUrn, snapOf,
      mergeTail_explicit, mergeTail, markDelete, saveResult_fst_resources,
      saveResult_fst_pending, List.getLast?_concat]

theorem failure_neutrality_witness :
    ((SnapshotManager.init [identA] false).applyStep
        ⟨.delete, some identA, none⟩ false).saved.getLast?.map
      (fun s => (s.resources, s.pendingOperations)) = some ([identA], []) :=
  failure_neutrality [identA] ⟨.delete, some identA, none⟩ trivial

/-- C6: Integrity verification at save time — every save hands a snapshot to
the persister; when verification passes the persisted integrity metadata is
cleared (even if previously set) and no error is returned; when it fails the
persisted metadata is populated with the violations, and the save returns
the `failed to verify snapshot` error exactly when `DisableIntegrityChecking`
is unset. -/
theorem save_integrity_verification (sm : SnapshotManager) :
    (sm.saveSnapshot).1.saved.length = sm.saved.length + 1 ∧
    (sm.saveSnapshot).1.saved.getLast?.map (fun s => s.resources) =
      some (snapOf sm).resources ∧
    (verifyIntegrity (snapOf sm).resources = [] →
      (sm.saveSnapshot).2 = none ∧
      (sm.saveSnapshot).1.saved.getLast?.map (fun s => s.integrityErrorMetadata) =
        some none) ∧
    (verifyIntegrity (snapOf sm).resources ≠ [] →
      (sm.saveSnapshot).1.saved.getLast?.map (fun s => s.integrityErrorMetadata) =
        some (some (verifyIntegrity (snapOf sm).resources)) ∧
      (sm.disableIntegrityChecking = false →
        (sm.saveSnapshot).2 = some "failed to verify snapshot") ∧
      (sm.disableIntegrityChecking = true → (sm.saveSnapshot).2 = none)) := by
  by_cases h : verifyIntegrity (snapOf sm).resources = [] <;>
    simp [SnapshotManager.saveSnapshot, saveResult, h]

/-- The invalid snapshot of the integrity tests: resource `a` depends on a
`b` that is not present. -/
def smBad : SnapshotManager := SnapshotManager.init [newResource "a" ["b"]] false

/-- The invalid snapshot saved with `DisableIntegrityChecking` set. -/
def smBadDisabled : SnapshotManager := { smBad with disableIntegrityChecking := true }

/-- A valid snapshot whose integrity metadata was previously populated. -/
def smGood : SnapshotManager :=
  { SnapshotManager.init [newResource "a" []] false with
    baseMetadata := some [.duplicateURN "stale"] }

theorem save_integrity_verification_witness :
    (smBad.saveSnapshot).2 = some "failed to verify snapshot" ∧
    (smBad.saveSnapshot).1.saved.length = 1 ∧
    (smBadDisabled.saveSnapshot).2 = none ∧
    (smBadDisabled.saveSnapshot).1.saved.getLast?.map (fun s => s.integrityErrorMetadata) =
      some (some (verifyIntegrity (snapOf smBadDisabled).resources)) ∧
    (smGood.saveSnapshot).2 = none ∧
    (smGood.saveSnapshot).1.saved.getLast?.map (fun s => s.integrityErrorMetadata) =
      some none :=
  ⟨((save_integrity_verification smBad).2.2.2 (by decide)).2.1 rfl,
   (save_integrity_verification smBad).1,
   ((save_integrity_verification smBadDisabled).2.2.2 (by decide)).2.2 rfl,
   ((save_integrity_verification smBadDisabled).2.2.2 (by decide)).1,
   ((save_integrity_verification smGood).2.2.1 (by decide)).1,
   ((save_integrity_verification smGood).2.2.1 (by decide)).2⟩

/-- C7: Skip-checkpoints mode — with the flag set, three meaningful Same
steps each driven through BeginMutation and a successful End, followed by
Close, produce exactly one save; no intermediate write occurs. -/
theorem skip_checkpoints_one_save (base : List ResourceState)
    (o₁ n₁ o₂ n₂ o₃ n₃ : ResourceState)
    (h₁ : sameMeaningful o₁ n₁ = true) (h₂ : sameMeaningful o₂ n₂ = true)
    (h₃ : sameMeaningful o₃ n₃ = true) :
    (((((SnapshotManager.init base true).applyStep ⟨.same, some o₁, some n₁⟩ true).applyStep
          ⟨.same, some o₂, some n₂⟩ true).applyStep
        ⟨.same, some o₃, some n₃⟩ true).close).saved.length = 1 := by
  simp [SnapshotManager.applyStep, SnapshotManager.beginMutation, opFor,
    SnapshotManager.endMutation, h₁, h₂, h₃, maybeSave, SnapshotManager.close,
    doSave_saved, SnapshotManager.init]

/-- The three resources of the skip-checkpoints scenario. -/
def skipRes1 : ResourceState := newResource "k1" []

def skipRes2 : ResourceState := newResource "k2" []

def skipRes3 : ResourceState := newResource "k3" []

/-- Meaningful Same targets: the protect bit is flipped. -/
def skipRes1U : ResourceState := { skipRes1 with protect := true }

def skipRes2U : ResourceState := { skipRes2 with protect := true }

def skipRes3U : ResourceState := { skipRes3 with protect := true }

theorem skip_checkpoints_one_save_witness :
    sameMeaningful skipRes1 skipRes1U = true ∧
    (((((SnapshotManager.init [skipRes1, skipRes2, skipRes3] true).applyStep
            ⟨.same, some skipRes1, some skipRes1U⟩ true).applyStep
          ⟨.same, some skipRes2, some skipRes2U⟩ true).applyStep
        ⟨.same, some skipRes3, some skipRes3U⟩ true).close).saved.length = 1 :=
  ⟨rfl, skip_checkpoints_one_save [skipRes1, skipRes2, skipRes3]
    skipRes1 skipRes1U skipRes2 skipRes2U skipRes3 skipRes3U rfl rfl rfl⟩

/-- C8: Delete lifecycle — with base `[A]`, BeginMutation of Delete(A)
saves a snapshot that still contains A and carries exactly one pending
operation of kind Deleting with A's URN; a successful End then saves a
snapshot with empty Resources and no pending operations. -/
theorem delete_lifecycle (a : ResourceState) :
    ((SnapshotManager.init [a] false).beginMutation ⟨.delete, some a, none⟩).saved.map
      (fun s => (s.resources,
        s.pendingOperations.map (fun op => (op.resource.urn, op.opType)))) =
      [([a], [(a.urn, OperationType.deleting)])] ∧
    (((SnapshotManager.init [a] false).beginMutation ⟨.delete, some a, none⟩).endMutation
        ⟨.delete, some a, none⟩ true).saved.getLast?.map
      (fun s => (s.resources, s.pendingOperations)) = some ([], []) := by
  constructor <;>
    simp [SnapshotManager.beginMutation, opFor, SnapshotManager.endMutation, maybeSave,
      doSave, SnapshotManager.saveSnapshot, SnapshotManager.init, Step.urn, Step.oldUrn,
      saveResult_fst_resources, saveResult_fst_pending, snapOf, mergeTail_explicit,
      mergeTail, markDelete, List.getLast?_concat]

/-- C9: RegisterResourceOutputs saves iff the outputs changed — with equal
outputs no save occurs; with changed outputs exactly one save occurs and the
saved snapshot holds the resource at its existing (only) position with the
new outputs and no pending operations. -/
theorem register_outputs_save_iff_changed (a n : ResourceState) :
    (pbeqEntries a.outputs n.outputs = true →
      ((SnapshotManager.init [a] false).registerResourceOutputs
          ⟨.same, some a, some n⟩).saved = []) ∧
    (pbeqEntries a.outputs n.outputs = false →
      ((SnapshotManager.init [a] false).registerResourceOutputs
          ⟨.same, some a, some n⟩).saved.map
        (fun s => (s.resources, s.pendingOperations)) = [([n], [])]) := by
  constructor <;> intro h <;>
    simp [SnapshotManager.registerResourceOutputs, h, maybeSave, SnapshotManager.init,
      doSave_saved, saveResult_fst_resources, saveResult_fst_pending, snapOf, mergeTail]

/-- The resource and changed-outputs target of `TestRegisterOutputs`. -/
def rroA : ResourceState := newResource "a" []

def rroA2 : ResourceState := { rroA with outputs := [("hello", .string "world")] }

theorem register_outputs_save_iff_changed_witness :
    (pbeqEntries rroA.outputs rroA.outputs = true ∧
      ((SnapshotManager.init [rroA] false).registerResourceOutputs
          ⟨.same, some rroA, some rroA⟩).saved = []) ∧
    (pbeqEntries rroA.outputs rroA2.outputs = false ∧
      ((SnapshotManager.init [rroA] false).registerResourceOutputs
          ⟨.same, some rroA, some rroA2⟩).saved.map
        (fun s => (s.resources, s.pendingOperations)) = [([rroA2], [])]) :=
  ⟨⟨rfl, (register_outputs_save_iff_changed rroA rroA).1 rfl⟩,
   ⟨rfl, (register_outputs_save_iff_changed rroA rroA2).2 rfl⟩⟩

end Pulumi
